import Mathlib

/-!
Verification of the parametric grid STL generator (`grid-generator.py`).

The generator is embedded shallowly: Python floats become exact rationals
(`ℚ`), the mutable triangle list becomes an explicit accumulator threaded
through `add_box`, the `for` loops that walk a cursor across the tray become
structural recursions on the remaining iteration count, and the ASCII output
becomes a list of structured lines in which each numeric component carries the
value a conformant reader recovers from the `%.6g` rendering (its value
rounded to six significant decimal digits).
-/

namespace GridGen

/-- A 3-component vector `(x, y, z)` of exact rationals, standing for the
`Vec3` tuple of the source. -/
structure Vec3 where
  x : ℚ
  y : ℚ
  z : ℚ
deriving DecidableEq

/-- A facet `(normal, v1, v2, v3)`, standing for the `Triangle` tuple of the
source. -/
structure Triangle where
  normal : Vec3
  v1 : Vec3
  v2 : Vec3
  v3 : Vec3
deriving DecidableEq

/-- Helper of `add_box` (the inner `face` function): append one rectangular
face `a b c d` as the two triangles `a b c` and `a c d`, both carrying
`normal`. -/
def face (triangles : List Triangle) (normal a b c d : Vec3) : List Triangle :=
  triangles ++ [⟨normal, a, b, c⟩, ⟨normal, a, c, d⟩]

/-- `add_box` from the source: normalize the two opposite corners per axis
(swap-on-detect), build the eight corners, and append the six faces (bottom,
top, -X, +X, -Y, +Y), two triangles each, to the accumulated list. -/
def add_box (triangles : List Triangle)
    (x0 y0 z0 x1 y1 z1 : ℚ) : List Triangle :=
  let xl := if x1 < x0 then x1 else x0
  let xh := if x1 < x0 then x0 else x1
  let yl := if y1 < y0 then y1 else y0
  let yh := if y1 < y0 then y0 else y1
  let zl := if z1 < z0 then z1 else z0
  let zh := if z1 < z0 then z0 else z1
  let p000 : Vec3 := ⟨xl, yl, zl⟩
  let p100 : Vec3 := ⟨xh, yl, zl⟩
  let p110 : Vec3 := ⟨xh, yh, zl⟩
  let p010 : Vec3 := ⟨xl, yh, zl⟩
  let p001 : Vec3 := ⟨xl, yl, zh⟩
  let p101 : Vec3 := ⟨xh, yl, zh⟩
  let p111 : Vec3 := ⟨xh, yh, zh⟩
  let p011 : Vec3 := ⟨xl, yh, zh⟩
  let t1 := face triangles ⟨0, 0, -1⟩ p000 p100 p110 p010
  let t2 := face t1 ⟨0, 0, 1⟩ p001 p011 p111 p101
  let t3 := face t2 ⟨-1, 0, 0⟩ p000 p010 p011 p001
  let t4 := face t3 ⟨1, 0, 0⟩ p100 p101 p111 p110
  let t5 := face t4 ⟨0, -1, 0⟩ p000 p001 p101 p100
  face t5 ⟨0, 1, 0⟩ p010 p110 p111 p011

/-- The seven scalar inputs of `generate_grid` (the output filename is kept
separate). Dimensions are rationals (exact embedding of the floats), grid
counts are integers as in Python. -/
structure Params where
  outer_width : ℚ
  outer_length : ℚ
  base_thickness : ℚ
  wall_thickness : ℚ
  wall_height : ℚ
  cols : ℤ
  rows : ℤ
deriving DecidableEq

/-- `inner_width = outer_width - 2.0 * wall_thickness`. -/
def inner_width (p : Params) : ℚ := p.outer_width - 2 * p.wall_thickness

/-- `inner_length = outer_length - 2.0 * wall_thickness`. -/
def inner_length (p : Params) : ℚ := p.outer_length - 2 * p.wall_thickness

/-- `cell_width = (inner_width - (cols - 1) * wall_thickness) / cols`. -/
def cell_width (p : Params) : ℚ :=
  (inner_width p - ((p.cols : ℚ) - 1) * p.wall_thickness) / (p.cols : ℚ)

/-- `cell_length = (inner_length - (rows - 1) * wall_thickness) / rows`. -/
def cell_length (p : Params) : ℚ :=
  (inner_length p - ((p.rows : ℚ) - 1) * p.wall_thickness) / (p.rows : ℚ)

/-- An axis-aligned box extent, the two corners of one `add_box` call of
`generate_grid`. -/
structure Box where
  x0 : ℚ
  y0 : ℚ
  z0 : ℚ
  x1 : ℚ
  y1 : ℚ
  z1 : ℚ
deriving DecidableEq

/-- The internal-divider walk of `generate_grid`: starting the cursor at `x`
with `n` iterations left, each iteration advances by one cell (`step`); every
iteration but the last then emits one wall band `(cursor, cursor + wall)` and
advances past it. Returns the bands in emission order. -/
def dividerWalls (step wall : ℚ) : ℕ → ℚ → List (ℚ × ℚ)
  | 0, _ => []
  | 1, _ => []
  | n + 2, x =>
    (x + step, x + step + wall) :: dividerWalls step wall (n + 1) (x + step + wall)

/-- The base slab: `add_box(0, 0, 0, outer_width, outer_length,
base_thickness)`. -/
def baseBox (p : Params) : Box :=
  ⟨0, 0, 0, p.outer_width, p.outer_length, p.base_thickness⟩

/-- The left outer wall. -/
def leftBox (p : Params) : Box :=
  ⟨0, 0, p.base_thickness,
   p.wall_thickness, p.outer_length, p.base_thickness + p.wall_height⟩

/-- The right outer wall. -/
def rightBox (p : Params) : Box :=
  ⟨p.outer_width - p.wall_thickness, 0, p.base_thickness,
   p.outer_width, p.outer_length, p.base_thickness + p.wall_height⟩

/-- The front outer wall (the `y = 0` edge). -/
def frontBox (p : Params) : Box :=
  ⟨p.wall_thickness, 0, p.base_thickness,
   p.outer_width - p.wall_thickness, p.wall_thickness,
   p.base_thickness + p.wall_height⟩

/-- The back outer wall (the `y = outer_length` edge). -/
def backBox (p : Params) : Box :=
  ⟨p.wall_thickness, p.outer_length - p.wall_thickness, p.base_thickness,
   p.outer_width - p.wall_thickness, p.outer_length,
   p.base_thickness + p.wall_height⟩

/-- One internal vertical divider spanning the x-band `pr`. -/
def vBox (p : Params) (pr : ℚ × ℚ) : Box :=
  ⟨pr.1, p.wall_thickness, p.base_thickness,
   pr.2, p.outer_length - p.wall_thickness, p.base_thickness + p.wall_height⟩

/-- One internal horizontal divider spanning the y-band `pr`. -/
def hBox (p : Params) (pr : ℚ × ℚ) : Box :=
  ⟨p.wall_thickness, pr.1, p.base_thickness,
   p.outer_width - p.wall_thickness, pr.2, p.base_thickness + p.wall_height⟩

/-- The x-bands of the vertical dividers, from the column walk. -/
def vWallBands (p : Params) : List (ℚ × ℚ) :=
  dividerWalls (cell_width p) p.wall_thickness p.cols.toNat p.wall_thickness

/-- The y-bands of the horizontal dividers, from the row walk. -/
def hWallBands (p : Params) : List (ℚ × ℚ) :=
  dividerWalls (cell_length p) p.wall_thickness p.rows.toNat p.wall_thickness

/-- The box extents of the `add_box` calls of `generate_grid`, in call order:
base slab, left, right, front and back outer walls, the `cols - 1` vertical
dividers left-to-right, then the `rows - 1` horizontal dividers
front-to-back. -/
def planBoxes (p : Params) : List Box :=
  [baseBox p, leftBox p, rightBox p, frontBox p, backBox p]
  ++ (vWallBands p).map (vBox p)
  ++ (hWallBands p).map (hBox p)

/-- The triangle list `generate_grid` accumulates: every planned box is passed
through `add_box` in call order, appending to one buffer. -/
def mesh (p : Params) : List Triangle :=
  (planBoxes p).foldl (fun ts b => add_box ts b.x0 b.y0 b.z0 b.x1 b.y1 b.z1) []

/-- The validation and mesh-building part of `generate_grid`: the four
`raise ValueError` checks in source order, then the solid name
`grid_<cols>x<rows>` and the accumulated triangles that are handed to
`write_ascii_stl`. -/
def generate_grid (p : Params) : Except String (String × List Triangle) :=
  if p.cols < 1 ∨ p.rows < 1 then
    .error "cols and rows must be >= 1"
  else if p.wall_thickness ≤ 0 ∨ p.base_thickness ≤ 0 ∨ p.wall_height ≤ 0 then
    .error "Thicknesses and heights must be > 0"
  else if inner_width p ≤ 0 ∨ inner_length p ≤ 0 then
    .error "Outer size is too small for the chosen wall thickness."
  else if cell_width p ≤ 0 ∨ cell_length p ≤ 0 then
    .error "Outer size too small for the chosen wall thickness and grid count."
  else
    .ok ("grid_" ++ toString p.cols ++ "x" ++ toString p.rows, mesh p)

/-- Whether an `Except` is the error case. -/
def isErr {ε α : Type} : Except ε α → Bool
  | .error _ => true
  | .ok _ => false

/-- The conjunction of the conditions under which `generate_grid` runs to
completion (the negation of every `raise` guard). -/
def validParams (p : Params) : Prop :=
  1 ≤ p.cols ∧ 1 ≤ p.rows ∧
  0 < p.wall_thickness ∧ 0 < p.base_thickness ∧ 0 < p.wall_height ∧
  0 < inner_width p ∧ 0 < inner_length p ∧
  0 < cell_width p ∧ 0 < cell_length p

instance (p : Params) : Decidable (validParams p) := by
  unfold validParams; infer_instance

/-- The default parameter set of the CLI. -/
def defaultParams : Params :=
  ⟨215, 115, 2, 2, 20, 5, 3⟩

/-- The twelve triangles of one box whose corners are already normalized
(`xl ≤ xh` and so on), spelled out in the emission order of `add_box`:
bottom, top, -X, +X, -Y, +Y, two triangles per face sharing the `a`-`c`
diagonal. -/
def twelveTris (xl yl zl xh yh zh : ℚ) : List Triangle :=
  [⟨⟨0, 0, -1⟩, ⟨xl, yl, zl⟩, ⟨xh, yl, zl⟩, ⟨xh, yh, zl⟩⟩,
   ⟨⟨0, 0, -1⟩, ⟨xl, yl, zl⟩, ⟨xh, yh, zl⟩, ⟨xl, yh, zl⟩⟩,
   ⟨⟨0, 0, 1⟩, ⟨xl, yl, zh⟩, ⟨xl, yh, zh⟩, ⟨xh, yh, zh⟩⟩,
   ⟨⟨0, 0, 1⟩, ⟨xl, yl, zh⟩, ⟨xh, yh, zh⟩, ⟨xh, yl, zh⟩⟩,
   ⟨⟨-1, 0, 0⟩, ⟨xl, yl, zl⟩, ⟨xl, yh, zl⟩, ⟨xl, yh, zh⟩⟩,
   ⟨⟨-1, 0, 0⟩, ⟨xl, yl, zl⟩, ⟨xl, yh, zh⟩, ⟨xl, yl, zh⟩⟩,
   ⟨⟨1, 0, 0⟩, ⟨xh, yl, zl⟩, ⟨xh, yl, zh⟩, ⟨xh, yh, zh⟩⟩,
   ⟨⟨1, 0, 0⟩, ⟨xh, yl, zl⟩, ⟨xh, yh, zh⟩, ⟨xh, yh, zl⟩⟩,
   ⟨⟨0, -1, 0⟩, ⟨xl, yl, zl⟩, ⟨xl, yl, zh⟩, ⟨xh, yl, zh⟩⟩,
   ⟨⟨0, -1, 0⟩, ⟨xl, yl, zl⟩, ⟨xh, yl, zh⟩, ⟨xh, yl, zl⟩⟩,
   ⟨⟨0, 1, 0⟩, ⟨xl, yh, zl⟩, ⟨xh, yh, zl⟩, ⟨xh, yh, zh⟩⟩,
   ⟨⟨0, 1, 0⟩, ⟨xl, yh, zl⟩, ⟨xh, yh, zh⟩, ⟨xl, yh, zh⟩⟩]

/-- The triangles of one planned box, as `add_box` appends them. -/
def boxTris (b : Box) : List Triangle :=
  twelveTris (min b.x0 b.x1) (min b.y0 b.y1) (min b.z0 b.z1)
    (max b.x0 b.x1) (max b.y0 b.y1) (max b.z0 b.z1)

/-- A box whose corners are strictly ordered on every axis. -/
def boxPos (b : Box) : Prop := b.x0 < b.x1 ∧ b.y0 < b.y1 ∧ b.z0 < b.z1

/-- A box lying inside the tray's outer bounding volume. -/
def boxIn (p : Params) (b : Box) : Prop :=
  0 ≤ b.x0 ∧ b.x1 ≤ p.outer_width ∧
  0 ≤ b.y0 ∧ b.y1 ≤ p.outer_length ∧
  0 ≤ b.z0 ∧ b.z1 ≤ p.base_thickness + p.wall_height

/-- A point within the tray's outer bounding volume. -/
def vecIn (p : Params) (v : Vec3) : Prop :=
  0 ≤ v.x ∧ v.x ≤ p.outer_width ∧
  0 ≤ v.y ∧ v.y ≤ p.outer_length ∧
  0 ≤ v.z ∧ v.z ≤ p.base_thickness + p.wall_height

/-- A triangle all of whose vertices lie within the tray's outer bounding
volume. -/
def triIn (p : Params) (t : Triangle) : Prop :=
  vecIn p t.v1 ∧ vecIn p t.v2 ∧ vecIn p t.v3

/-- Componentwise difference of two points. -/
def vsub (a b : Vec3) : Vec3 := ⟨a.x - b.x, a.y - b.y, a.z - b.z⟩

/-- Cross product of two vectors. -/
def cross (a b : Vec3) : Vec3 :=
  ⟨a.y * b.z - a.z * b.y, a.z * b.x - a.x * b.z, a.x * b.y - a.y * b.x⟩

/-- Dot product of two vectors. -/
def dot3 (a b : Vec3) : ℚ := a.x * b.x + a.y * b.y + a.z * b.z

/-- Scalar multiple of a vector. -/
def vscale (c : ℚ) (v : Vec3) : Vec3 := ⟨c * v.x, c * v.y, c * v.z⟩

/-- The winding vector of a facet: `cross (v2 - v1) (v3 - v1)`. -/
def triCross (t : Triangle) : Vec3 := cross (vsub t.v2 t.v1) (vsub t.v3 t.v1)

/-- The winding agrees with the stated normal: the cross product
`cross (v2-v1) (v3-v1)` is a positive multiple of the stated normal. For a
unit-length normal this says exactly that the normalized cross product equals
the stated normal, i.e. the vertices run counter-clockwise seen from outside
along the normal. -/
def windingMatches (t : Triangle) : Prop :=
  triCross t = vscale (dot3 (triCross t) t.normal) t.normal ∧
  0 < dot3 (triCross t) t.normal

/-- The winding is opposite to the stated normal: the cross product is a
negative multiple of the stated normal, i.e. a positive multiple of its
negation, so the vertices run clockwise seen from outside along the stated
normal. -/
def windingReversed (t : Triangle) : Prop :=
  triCross t = vscale (dot3 (triCross t) t.normal) t.normal ∧
  dot3 (triCross t) t.normal < 0

/-- A point strictly inside a box. -/
def inOpen (b : Box) (v : Vec3) : Prop :=
  b.x0 < v.x ∧ v.x < b.x1 ∧ b.y0 < v.y ∧ v.y < b.y1 ∧ b.z0 < v.z ∧ v.z < b.z1

/-- Two boxes whose open interiors share no point: they intersect at most in
a zero-thickness face. -/
def openDisjoint (b c : Box) : Prop := ∀ v : Vec3, ¬(inOpen b v ∧ inOpen c v)

/-- A separating axis between two boxes: on some coordinate one's range ends
before the other's begins. -/
def sepAxis (b c : Box) : Prop :=
  b.x1 ≤ c.x0 ∨ c.x1 ≤ b.x0 ∨ b.y1 ≤ c.y0 ∨ c.y1 ≤ b.y0 ∨
  b.z1 ≤ c.z0 ∨ c.z1 ≤ b.z0

/-- Floor of the base-10 logarithm of a natural number (0 for `n < 10`,
in particular for `n = 0`). -/
def log10floor (n : ℕ) : ℕ :=
  if h : n < 10 then 0 else log10floor (n / 10) + 1
decreasing_by exact Nat.div_lt_self (by omega) (by omega)

/-- The integer `e` with `10 ^ e ≤ |q| < 10 ^ (e + 1)` for `q ≠ 0` (0 for
`q = 0`): the decimal exponent of `q`'s leading significant digit. -/
def exp10 (q : ℚ) : ℤ :=
  let a : ℤ := log10floor q.num.natAbs
  let b : ℤ := log10floor q.den
  if (10 : ℚ) ^ (a - b) ≤ |q| then a - b else a - b - 1

/-- Round a rational to the nearest integer, ties to the even neighbour (the
rounding of IEEE-style formatting). -/
def roundHalfEven (q : ℚ) : ℤ :=
  let f := ⌊q⌋
  if q - (f : ℚ) < 1 / 2 then f
  else if (1 : ℚ) / 2 < q - (f : ℚ) then f + 1
  else if f % 2 = 0 then f else f + 1

/-- Modelled from the spec: the value a conformant reader recovers from a
component rendered by the serializer's `%.6g` format — the input rounded to
at most six significant decimal digits ("general floating-point format",
"up to 6 significant digits, trimming trailing redundancy"). The textual
trimming itself carries no information, so the model keeps the recovered
value. -/
def round6 (q : ℚ) : ℚ :=
  if q = 0 then 0
  else
    let e := exp10 q
    let m := roundHalfEven (|q| * (10 : ℚ) ^ ((5 : ℤ) - e))
    (if q < 0 then -1 else 1) * (m : ℚ) * (10 : ℚ) ^ (e - 5)

/-- Componentwise 6-significant-digit rounding of a rendered vector. -/
def v3round (v : Vec3) : Vec3 := ⟨round6 v.x, round6 v.y, round6 v.z⟩

/-- A triangle as a conformant reader recovers it from the rendered text. -/
def triRound (t : Triangle) : Triangle :=
  ⟨v3round t.normal, v3round t.v1, v3round t.v2, v3round t.v3⟩

/-- One line of the ASCII output, one constructor per line form of the
exchange-format grammar. A numeric payload carries the value its rendered
text denotes. -/
inductive StlLine where
  | solidLine (name : String)
  | facetNormal (n : Vec3)
  | outerLoop
  | vertexLine (v : Vec3)
  | endloop
  | endfacet
  | endsolidLine (name : String)
deriving DecidableEq

/-- The seven lines `write_ascii_stl` emits for one triangle: facet normal,
outer loop, the three vertices in order, endloop, endfacet. -/
def facetLines (t : Triangle) : List StlLine :=
  [.facetNormal (v3round t.normal), .outerLoop,
   .vertexLine (v3round t.v1), .vertexLine (v3round t.v2),
   .vertexLine (v3round t.v3), .endloop, .endfacet]

/-- `write_ascii_stl`: the `solid <name>` header, the lines of every triangle
in list order, and the `endsolid <name>` footer. -/
def write_ascii_stl (solid_name : String) (triangles : List Triangle) :
    List StlLine :=
  StlLine.solidLine solid_name ::
    (triangles.flatMap facetLines ++ [StlLine.endsolidLine solid_name])

/-- A conformant reader of the facet section: seven lines per facet until the
`endsolid` footer. -/
def readFacets : List StlLine → Option (List Triangle × String)
  | [StlLine.endsolidLine nm] => some ([], nm)
  | StlLine.facetNormal n :: StlLine.outerLoop :: StlLine.vertexLine a ::
      StlLine.vertexLine b :: StlLine.vertexLine c :: StlLine.endloop ::
      StlLine.endfacet :: rest =>
    match readFacets rest with
    | some (ts, nm) => some (⟨n, a, b, c⟩ :: ts, nm)
    | none => none
  | _ => none

/-- A conformant reader of the whole file: `solid <name>` header, facets,
matching `endsolid <name>` footer. -/
def read_ascii_stl : List StlLine → Option (String × List Triangle)
  | StlLine.solidLine nm :: rest =>
    match readFacets rest with
    | some (ts, nm2) => if nm2 = nm then some (nm, ts) else none
    | none => none
  | _ => none

/-- One full run of `generate_grid` including its final `write_ascii_stl`
call. The file system is modelled by the run's list of
(filename, lines-written) pairs: the source opens and writes the output file
only inside `write_ascii_stl`, which runs after all validation. -/
def generate_grid_run (p : Params) (filename : String) :
    Except String Unit × List (String × List StlLine) :=
  match generate_grid p with
  | .error e => (.error e, [])
  | .ok (nm, ts) => (.ok (), [(filename, write_ascii_stl nm ts)])

/-- The smallest grid: one column, one row, a 10 mm square tray. -/
def gridOneParams : Params := ⟨10, 10, 1, 1, 5, 1, 1⟩

/-- A 2-by-2 grid whose one vertical and one horizontal divider cross in the
middle of the tray. -/
def crossParams : Params := ⟨20, 20, 2, 2, 10, 2, 2⟩

/-- The first facet of the default tray's mesh: the bottom face of the base
slab, first triangle. -/
def firstFacet : Triangle :=
  ⟨⟨0, 0, -1⟩, ⟨0, 0, 0⟩, ⟨215, 0, 0⟩, ⟨215, 115, 0⟩⟩

/-- A coordinate value with seven significant decimal digits, 0.1234567,
given in lowest terms so its numerator and denominator are immediate. -/
def sevenDigits : ℚ := Rat.mk' 1234567 10000000 (by norm_num) (by norm_num)

/-- A triangle holding the seven-significant-digit coordinate. -/
def sevenDigitsTri : Triangle :=
  ⟨⟨0, 0, 0⟩, ⟨sevenDigits, 0, 0⟩, ⟨0, 0, 0⟩, ⟨0, 0, 0⟩⟩

theorem ite_lt_min (a b : ℚ) : (if b < a then b else a) = min a b := by
  rcases lt_or_le b a with h | h
  · rw [if_pos h, min_eq_right h.le]
  · rw [if_neg (not_lt.2 h), min_eq_left h]

theorem ite_lt_max (a b : ℚ) : (if b < a then a else b) = max a b := by
  rcases lt_or_le b a with h | h
  · rw [if_pos h, max_eq_left h.le]
  · rw [if_neg (not_lt.2 h), max_eq_right h]

theorem add_box_eq (ts : List Triangle) (x0 y0 z0 x1 y1 z1 : ℚ) :
    add_box ts x0 y0 z0 x1 y1 z1 =
      ts ++ twelveTris (min x0 x1) (min y0 y1) (min z0 z1)
        (max x0 x1) (max y0 y1) (max z0 z1) := by
  simp only [add_box, face, ite_lt_min, ite_lt_max, twelveTris,
    List.append_assoc, List.cons_append, List.nil_append]

theorem add_box_boxTris (ts : List Triangle) (b : Box) :
    add_box ts b.x0 b.y0 b.z0 b.x1 b.y1 b.z1 = ts ++ boxTris b :=
  add_box_eq ts b.x0 b.y0 b.z0 b.x1 b.y1 b.z1

theorem foldl_add_box (bs : List Box) (init : List Triangle) :
    bs.foldl (fun ts b => add_box ts b.x0 b.y0 b.z0 b.x1 b.y1 b.z1) init =
      init ++ bs.flatMap boxTris := by
  induction bs generalizing init with
  | nil => simp
  | cons b bs ih =>
    rw [List.foldl_cons, add_box_boxTris, ih, List.flatMap_cons,
      List.append_assoc]

theorem mesh_eq (p : Params) : mesh p = (planBoxes p).flatMap boxTris := by
  simp [mesh, foldl_add_box]

theorem twelveTris_length (xl yl zl xh yh zh : ℚ) :
    (twelveTris xl yl zl xh yh zh).length = 12 := rfl

theorem boxTris_length (b : Box) : (boxTris b).length = 12 := rfl

theorem mesh_length (p : Params) :
    (mesh p).length = 12 * (planBoxes p).length := by
  rw [mesh_eq]
  induction planBoxes p with
  | nil => rfl
  | cons b bs ih => simp [ih, boxTris_length, Nat.mul_succ, Nat.add_comm]

theorem dividerWalls_length (s w : ℚ) :
    ∀ (n : ℕ) (x : ℚ), (dividerWalls s w n x).length = n - 1
  | 0, _ => rfl
  | 1, _ => rfl
  | n + 2, x => by
    simp [dividerWalls, dividerWalls_length s w (n + 1)]

theorem planBoxes_length (p : Params) :
    (planBoxes p).length = 5 + (p.cols.toNat - 1) + (p.rows.toNat - 1) := by
  simp [planBoxes, vWallBands, hWallBands, dividerWalls_length]
  omega

theorem dividerWalls_mem {s w : ℚ} (hs : 0 < s) (hw : 0 < w) :
    ∀ (n : ℕ) (x : ℚ), ∀ pr ∈ dividerWalls s w n x,
      x + s ≤ pr.1 ∧ pr.2 = pr.1 + w ∧ pr.2 ≤ x + ((n : ℚ) - 1) * (s + w)
  | 0, x => by simp [dividerWalls]
  | 1, x => by simp [dividerWalls]
  | n + 2, x => by
    intro pr hpr
    rcases List.mem_cons.1 hpr with h | h
    · subst h
      refine ⟨le_refl _, rfl, ?_⟩
      have hn : (0 : ℚ) ≤ (n : ℚ) := Nat.cast_nonneg n
      push_cast
      nlinarith
    · obtain ⟨h1, h2, h3⟩ := dividerWalls_mem hs hw (n + 1) (x + s + w) pr h
      refine ⟨by linarith, h2, ?_⟩
      push_cast at h3 ⊢
      linarith

theorem dividerWalls_pairwise {s w : ℚ} (hs : 0 < s) (hw : 0 < w) :
    ∀ (n : ℕ) (x : ℚ),
      List.Pairwise (fun a b : ℚ × ℚ => a.2 ≤ b.1) (dividerWalls s w n x)
  | 0, _ => by simp [dividerWalls]
  | 1, _ => by simp [dividerWalls]
  | n + 2, x => by
    rw [dividerWalls]
    refine List.Pairwise.cons ?_ (dividerWalls_pairwise hs hw (n + 1) (x + s + w))
    intro pr hpr
    have h := (dividerWalls_mem hs hw (n + 1) (x + s + w) pr hpr).1
    show x + s + w ≤ pr.1
    linarith

theorem cols_toNat_cast {p : Params} (h : 1 ≤ p.cols) :
    ((p.cols.toNat : ℚ)) = ((p.cols : ℚ)) := by
  have := Int.toNat_of_nonneg (by omega : (0 : ℤ) ≤ p.cols)
  exact_mod_cast congrArg (fun z : ℤ => (z : ℚ)) this

theorem rows_toNat_cast {p : Params} (h : 1 ≤ p.rows) :
    ((p.rows.toNat : ℚ)) = ((p.rows : ℚ)) := by
  have := Int.toNat_of_nonneg (by omega : (0 : ℤ) ≤ p.rows)
  exact_mod_cast congrArg (fun z : ℤ => (z : ℚ)) this

theorem cell_width_budget {p : Params} (h : validParams p) :
    (p.cols : ℚ) * cell_width p =
      inner_width p - ((p.cols : ℚ) - 1) * p.wall_thickness := by
  have hc : (1 : ℤ) ≤ p.cols := h.1
  have hne : ((p.cols : ℚ)) ≠ 0 := by
    exact_mod_cast (by omega : (p.cols : ℤ) ≠ 0)
  rw [cell_width]
  field_simp

theorem cell_length_budget {p : Params} (h : validParams p) :
    (p.rows : ℚ) * cell_length p =
      inner_length p - ((p.rows : ℚ) - 1) * p.wall_thickness := by
  have hc : (1 : ℤ) ≤ p.rows := h.2.1
  have hne : ((p.rows : ℚ)) ≠ 0 := by
    exact_mod_cast (by omega : (p.rows : ℤ) ≠ 0)
  rw [cell_length]
  field_simp

theorem vWallBands_range {p : Params} (h : validParams p) :
    ∀ pr ∈ vWallBands p,
      p.wall_thickness + cell_width p ≤ pr.1 ∧ pr.2 = pr.1 + p.wall_thickness ∧
      pr.2 ≤ p.outer_width - p.wall_thickness - cell_width p := by
  obtain ⟨hc, hr, hwt, hbt, hwh, hiw, hil, hcw, hcl⟩ := h
  intro pr hpr
  obtain ⟨h1, h2, h3⟩ := dividerWalls_mem hcw hwt p.cols.toNat p.wall_thickness pr hpr
  refine ⟨h1, h2, ?_⟩
  rw [cols_toNat_cast hc] at h3
  have hb := cell_width_budget ⟨hc, hr, hwt, hbt, hwh, hiw, hil, hcw, hcl⟩
  have hiw' : inner_width p = p.outer_width - 2 * p.wall_thickness := rfl
  nlinarith [h3, hb]

theorem hWallBands_range {p : Params} (h : validParams p) :
    ∀ pr ∈ hWallBands p,
      p.wall_thickness + cell_length p ≤ pr.1 ∧ pr.2 = pr.1 + p.wall_thickness ∧
      pr.2 ≤ p.outer_length - p.wall_thickness - cell_length p := by
  obtain ⟨hc, hr, hwt, hbt, hwh, hiw, hil, hcw, hcl⟩ := h
  intro pr hpr
  obtain ⟨h1, h2, h3⟩ := dividerWalls_mem hcl hwt p.rows.toNat p.wall_thickness pr hpr
  refine ⟨h1, h2, ?_⟩
  rw [rows_toNat_cast hr] at h3
  have hb := cell_length_budget ⟨hc, hr, hwt, hbt, hwh, hiw, hil, hcw, hcl⟩
  have hil' : inner_length p = p.outer_length - 2 * p.wall_thickness := rfl
  nlinarith [h3, hb]

theorem planBoxes_pos {p : Params} (h : validParams p) :
    ∀ b ∈ planBoxes p, boxPos b := by
  have hv := vWallBands_range h
  have hh := hWallBands_range h
  obtain ⟨hc, hr, hwt, hbt, hwh, hiw, hil, hcw, hcl⟩ := h
  have hiw' : inner_width p = p.outer_width - 2 * p.wall_thickness := rfl
  have hil' : inner_length p = p.outer_length - 2 * p.wall_thickness := rfl
  intro b hb
  simp only [planBoxes, List.mem_append, List.mem_cons, List.not_mem_nil,
    or_false, List.mem_map] at hb
  rcases hb with (((rfl | rfl | rfl | rfl | rfl) | ⟨pr, hpr, rfl⟩) | ⟨pr, hpr, rfl⟩) <;>
    [skip; skip; skip; skip; skip;
     obtain ⟨h1, h2, h3⟩ := hv pr hpr; obtain ⟨h1, h2, h3⟩ := hh pr hpr] <;>
    refine ⟨?_, ?_, ?_⟩ <;>
    simp only [baseBox, leftBox, rightBox, frontBox, backBox, vBox, hBox] <;>
    linarith

theorem planBoxes_in {p : Params} (h : validParams p) :
    ∀ b ∈ planBoxes p, boxIn p b := by
  have hv := vWallBands_range h
  have hh := hWallBands_range h
  obtain ⟨hc, hr, hwt, hbt, hwh, hiw, hil, hcw, hcl⟩ := h
  have hiw' : inner_width p = p.outer_width - 2 * p.wall_thickness := rfl
  have hil' : inner_length p = p.outer_length - 2 * p.wall_thickness := rfl
  intro b hb
  simp only [planBoxes, List.mem_append, List.mem_cons, List.not_mem_nil,
    or_false, List.mem_map] at hb
  rcases hb with (((rfl | rfl | rfl | rfl | rfl) | ⟨pr, hpr, rfl⟩) | ⟨pr, hpr, rfl⟩) <;>
    [skip; skip; skip; skip; skip;
     obtain ⟨h1, h2, h3⟩ := hv pr hpr; obtain ⟨h1, h2, h3⟩ := hh pr hpr] <;>
    refine ⟨?_, ?_, ?_, ?_, ?_, ?_⟩ <;>
    simp only [baseBox, leftBox, rightBox, frontBox, backBox, vBox, hBox] <;>
    linarith

theorem boxTris_of_pos {b : Box} (hb : boxPos b) :
    boxTris b = twelveTris b.x0 b.y0 b.z0 b.x1 b.y1 b.z1 := by
  unfold boxTris
  rw [min_eq_left hb.1.le, min_eq_left hb.2.1.le, min_eq_left hb.2.2.le,
    max_eq_right hb.1.le, max_eq_right hb.2.1.le, max_eq_right hb.2.2.le]

theorem twelveTris_bounds {p : Params} {xl yl zl xh yh zh : ℚ}
    (hx0 : 0 ≤ xl) (hx : xl ≤ xh) (hx1 : xh ≤ p.outer_width)
    (hy0 : 0 ≤ yl) (hy : yl ≤ yh) (hy1 : yh ≤ p.outer_length)
    (hz0 : 0 ≤ zl) (hz : zl ≤ zh)
    (hz1 : zh ≤ p.base_thickness + p.wall_height) :
    ∀ t ∈ twelveTris xl yl zl xh yh zh, triIn p t := by
  intro t ht
  simp only [twelveTris, List.mem_cons, List.not_mem_nil, or_false] at ht
  rcases ht with rfl | rfl | rfl | rfl | rfl | rfl | rfl | rfl | rfl | rfl | rfl | rfl <;>
    refine ⟨⟨?_, ?_, ?_, ?_, ?_, ?_⟩, ⟨?_, ?_, ?_, ?_, ?_, ?_⟩,
      ⟨?_, ?_, ?_, ?_, ?_, ?_⟩⟩ <;>
    linarith

theorem mesh_bounds {p : Params} (h : validParams p) :
    ∀ t ∈ mesh p, triIn p t := by
  intro t ht
  rw [mesh_eq] at ht
  rcases List.mem_flatMap.1 ht with ⟨b, hb, htb⟩
  have hpos := planBoxes_pos h b hb
  obtain ⟨h1, h2, h3, h4, h5, h6⟩ := planBoxes_in h b hb
  rw [boxTris_of_pos hpos] at htb
  exact twelveTris_bounds h1 hpos.1.le h2 h3 hpos.2.1.le h4 h5 hpos.2.2.le h6
    t htb

theorem twelveTris_winding {xl yl zl xh yh zh : ℚ}
    (hx : xl < xh) (hy : yl < yh) (hz : zl < zh) :
    ∀ t ∈ twelveTris xl yl zl xh yh zh, windingReversed t := by
  have hdx := sub_pos.2 hx
  have hdy := sub_pos.2 hy
  have hdz := sub_pos.2 hz
  intro t ht
  simp only [twelveTris, List.mem_cons, List.not_mem_nil, or_false] at ht
  rcases ht with rfl | rfl | rfl | rfl | rfl | rfl | rfl | rfl | rfl | rfl | rfl | rfl
  all_goals
    constructor
    · simp only [triCross, cross, vsub, dot3, vscale, Vec3.mk.injEq]
      exact ⟨by ring, by ring, by ring⟩
    · simp only [triCross, cross, vsub, dot3, vscale]
      nlinarith [mul_pos hdx hdy, mul_pos hdy hdz, mul_pos hdx hdz]

theorem mesh_winding {p : Params} (h : validParams p) :
    ∀ t ∈ mesh p, windingReversed t := by
  intro t ht
  rw [mesh_eq] at ht
  rcases List.mem_flatMap.1 ht with ⟨b, hb, htb⟩
  have hpos := planBoxes_pos h b hb
  rw [boxTris_of_pos hpos] at htb
  exact twelveTris_winding hpos.1 hpos.2.1 hpos.2.2 t htb

theorem sepAxis_openDisjoint {b c : Box} (h : sepAxis b c) :
    openDisjoint b c := by
  intro v hv
  simp only [inOpen] at hv
  obtain ⟨⟨b1, b2, b3, b4, b5, b6⟩, c1, c2, c3, c4, c5, c6⟩ := hv
  rcases h with h | h | h | h | h | h <;> linarith

theorem pairwise_sep_v {p : Params} (h : validParams p) :
    List.Pairwise sepAxis
      ([baseBox p, leftBox p, rightBox p, frontBox p, backBox p]
        ++ (vWallBands p).map (vBox p)) := by
  have hv := vWallBands_range h
  obtain ⟨hc, hr, hwt, hbt, hwh, hiw, hil, hcw, hcl⟩ := h
  have hiw' : inner_width p = p.outer_width - 2 * p.wall_thickness := rfl
  have hil' : inner_length p = p.outer_length - 2 * p.wall_thickness := rfl
  rw [List.pairwise_append]
  refine ⟨?_, ?_, ?_⟩
  · refine List.Pairwise.cons ?_ (List.Pairwise.cons ?_ (List.Pairwise.cons ?_
      (List.Pairwise.cons ?_ (List.Pairwise.cons ?_ List.Pairwise.nil))))
    · intro a ha
      simp only [List.mem_cons, List.not_mem_nil, or_false] at ha
      rcases ha with rfl | rfl | rfl | rfl <;>
        exact Or.inr (Or.inr (Or.inr (Or.inr (Or.inl (le_refl _)))))
    · intro a ha
      simp only [List.mem_cons, List.not_mem_nil, or_false] at ha
      rcases ha with rfl | rfl | rfl
      · refine Or.inl ?_
        simp only [leftBox, rightBox]
        linarith
      · exact Or.inl (le_refl _)
      · exact Or.inl (le_refl _)
    · intro a ha
      simp only [List.mem_cons, List.not_mem_nil, or_false] at ha
      rcases ha with rfl | rfl <;> exact Or.inr (Or.inl (le_refl _))
    · intro a ha
      simp only [List.mem_cons, List.not_mem_nil, or_false] at ha
      rcases ha with rfl
      refine Or.inr (Or.inr (Or.inl ?_))
      simp only [frontBox, backBox]
      linarith
    · intro a ha
      exact absurd ha (List.not_mem_nil a)
  · rw [List.pairwise_map]
    refine List.Pairwise.imp ?_
      (dividerWalls_pairwise hcw hwt p.cols.toNat p.wall_thickness)
    intro a b hab
    exact Or.inl hab
  · intro a ha b hb
    simp only [List.mem_cons, List.not_mem_nil, or_false] at ha
    rcases List.mem_map.1 hb with ⟨pr, hpr, rfl⟩
    obtain ⟨h1, h2, h3⟩ := hv pr hpr
    rcases ha with rfl | rfl | rfl | rfl | rfl
    · exact Or.inr (Or.inr (Or.inr (Or.inr (Or.inl (le_refl _)))))
    · refine Or.inl ?_
      simp only [leftBox, vBox]
      linarith
    · refine Or.inr (Or.inl ?_)
      simp only [rightBox, vBox]
      linarith
    · exact Or.inr (Or.inr (Or.inl (le_refl _)))
    · exact Or.inr (Or.inr (Or.inr (Or.inl (le_refl _))))

theorem pairwise_sep_h {p : Params} (h : validParams p) :
    List.Pairwise sepAxis
      ([baseBox p, leftBox p, rightBox p, frontBox p, backBox p]
        ++ (hWallBands p).map (hBox p)) := by
  have hh := hWallBands_range h
  obtain ⟨hc, hr, hwt, hbt, hwh, hiw, hil, hcw, hcl⟩ := h
  have hiw' : inner_width p = p.outer_width - 2 * p.wall_thickness := rfl
  have hil' : inner_length p = p.outer_length - 2 * p.wall_thickness := rfl
  rw [List.pairwise_append]
  refine ⟨?_, ?_, ?_⟩
  · refine List.Pairwise.cons ?_ (List.Pairwise.cons ?_ (List.Pairwise.cons ?_
      (List.Pairwise.cons ?_ (List.Pairwise.cons ?_ List.Pairwise.nil))))
    · intro a ha
      simp only [List.mem_cons, List.not_mem_nil, or_false] at ha
      rcases ha with rfl | rfl | rfl | rfl <;>
        exact Or.inr (Or.inr (Or.inr (Or.inr (Or.inl (le_refl _)))))
    · intro a ha
      simp only [List.mem_cons, List.not_mem_nil, or_false] at ha
      rcases ha with rfl | rfl | rfl
      · refine Or.inl ?_
        simp only [leftBox, rightBox]
        linarith
      · exact Or.inl (le_refl _)
      · exact Or.inl (le_refl _)
    · intro a ha
      simp only [List.mem_cons, List.not_mem_nil, or_false] at ha
      rcases ha with rfl | rfl <;> exact Or.inr (Or.inl (le_refl _))
    · intro a ha
      simp only [List.mem_cons, List.not_mem_nil, or_false] at ha
      rcases ha with rfl
      refine Or.inr (Or.inr (Or.inl ?_))
      simp only [frontBox, backBox]
      linarith
    · intro a ha
      exact absurd ha (List.not_mem_nil a)
  · rw [List.pairwise_map]
    refine List.Pairwise.imp ?_
      (dividerWalls_pairwise hcl hwt p.rows.toNat p.wall_thickness)
    intro a b hab
    exact Or.inr (Or.inr (Or.inl hab))
  · intro a ha b hb
    simp only [List.mem_cons, List.not_mem_nil, or_false] at ha
    rcases List.mem_map.1 hb with ⟨pr, hpr, rfl⟩
    obtain ⟨h1, h2, h3⟩ := hh pr hpr
    rcases ha with rfl | rfl | rfl | rfl | rfl
    · exact Or.inr (Or.inr (Or.inr (Or.inr (Or.inl (le_refl _)))))
    · exact Or.inl (le_refl _)
    · exact Or.inr (Or.inl (le_refl _))
    · refine Or.inr (Or.inr (Or.inl ?_))
      simp only [frontBox, hBox]
      linarith
    · refine Or.inr (Or.inr (Or.inr (Or.inl ?_)))
      simp only [backBox, hBox]
      linarith

theorem generate_grid_ok {p : Params} (h : validParams p) :
    generate_grid p =
      .ok ("grid_" ++ toString p.cols ++ "x" ++ toString p.rows, mesh p) := by
  obtain ⟨hc, hr, hwt, hbt, hwh, hiw, hil, hcw, hcl⟩ := h
  have h1 : ¬(p.cols < 1 ∨ p.rows < 1) := by push_neg; exact ⟨hc, hr⟩
  have h2 : ¬(p.wall_thickness ≤ 0 ∨ p.base_thickness ≤ 0 ∨
      p.wall_height ≤ 0) := by push_neg; exact ⟨hwt, hbt, hwh⟩
  have h3 : ¬(inner_width p ≤ 0 ∨ inner_length p ≤ 0) := by
    push_neg; exact ⟨hiw, hil⟩
  have h4 : ¬(cell_width p ≤ 0 ∨ cell_length p ≤ 0) := by
    push_neg; exact ⟨hcw, hcl⟩
  simp only [generate_grid, if_neg h1, if_neg h2, if_neg h3, if_neg h4]

theorem generate_grid_err_iff (p : Params) :
    isErr (generate_grid p) = true ↔
      (p.cols < 1 ∨ p.rows < 1 ∨ p.wall_thickness ≤ 0 ∨
       p.base_thickness ≤ 0 ∨ p.wall_height ≤ 0 ∨ inner_width p ≤ 0 ∨
       inner_length p ≤ 0 ∨ cell_width p ≤ 0 ∨ cell_length p ≤ 0) := by
  unfold generate_grid
  split_ifs with h1 h2 h3 h4 <;> simp only [isErr] <;>
    constructor <;> intro hx <;> tauto

theorem readFacets_roundtrip (nm : String) (ts : List Triangle) :
    readFacets (ts.flatMap facetLines ++ [StlLine.endsolidLine nm]) =
      some (ts.map triRound, nm) := by
  induction ts with
  | nil => rfl
  | cons t ts ih =>
    simp only [List.flatMap_cons, facetLines, List.cons_append,
      List.append_assoc, List.nil_append, List.map_cons]
    rw [readFacets, ih]
    rfl

theorem write_read_roundtrip (nm : String) (ts : List Triangle) :
    read_ascii_stl (write_ascii_stl nm ts) = some (nm, ts.map triRound) := by
  rw [write_ascii_stl, read_ascii_stl, readFacets_roundtrip]
  simp

theorem validParams_default : validParams defaultParams := by
  simp only [validParams, inner_width, inner_length, cell_width, cell_length,
    defaultParams]
  norm_num

theorem validParams_gridOne : validParams gridOneParams := by
  simp only [validParams, inner_width, inner_length, cell_width, cell_length,
    gridOneParams]
  norm_num

theorem validParams_cross : validParams crossParams := by
  simp only [validParams, inner_width, inner_length, cell_width, cell_length,
    crossParams]
  norm_num

theorem log10floor_lt {n : ℕ} (h : n < 10) : log10floor n = 0 := by
  rw [log10floor]
  simp [h]

theorem log10floor_ge {n : ℕ} (h : 10 ≤ n) :
    log10floor n = log10floor (n / 10) + 1 := by
  rw [log10floor]
  simp [Nat.not_lt.2 h]

theorem log10floor_1234567 : log10floor 1234567 = 6 := by
  rw [log10floor_ge (by norm_num), show (1234567 : ℕ) / 10 = 123456 by norm_num,
    log10floor_ge (by norm_num), show (123456 : ℕ) / 10 = 12345 by norm_num,
    log10floor_ge (by norm_num), show (12345 : ℕ) / 10 = 1234 by norm_num,
    log10floor_ge (by norm_num), show (1234 : ℕ) / 10 = 123 by norm_num,
    log10floor_ge (by norm_num), show (123 : ℕ) / 10 = 12 by norm_num,
    log10floor_ge (by norm_num), show (12 : ℕ) / 10 = 1 by norm_num,
    log10floor_lt (by norm_num)]

theorem log10floor_10000000 : log10floor 10000000 = 7 := by
  rw [log10floor_ge (by norm_num),
    show (10000000 : ℕ) / 10 = 1000000 by norm_num,
    log10floor_ge (by norm_num), show (1000000 : ℕ) / 10 = 100000 by norm_num,
    log10floor_ge (by norm_num), show (100000 : ℕ) / 10 = 10000 by norm_num,
    log10floor_ge (by norm_num), show (10000 : ℕ) / 10 = 1000 by norm_num,
    log10floor_ge (by norm_num), show (1000 : ℕ) / 10 = 100 by norm_num,
    log10floor_ge (by norm_num), show (100 : ℕ) / 10 = 10 by norm_num,
    log10floor_ge (by norm_num), show (10 : ℕ) / 10 = 1 by norm_num,
    log10floor_lt (by norm_num)]

theorem sevenDigits_eq : sevenDigits = 1234567 / 10000000 := by
  rw [sevenDigits, Rat.mk'_eq_divInt, Rat.divInt_eq_div]
  norm_num

theorem exp10_sevenDigits : exp10 sevenDigits = -1 := by
  have h6 : log10floor sevenDigits.num.natAbs = 6 := log10floor_1234567
  have h7 : log10floor sevenDigits.den = 7 := log10floor_10000000
  simp only [exp10, h6, h7]
  split_ifs with h
  · norm_num
  · exfalso
    apply h
    rw [sevenDigits_eq, abs_of_pos (by norm_num : (0 : ℚ) < 1234567 / 10000000)]
    push_cast
    norm_num

theorem round6_sevenDigits : round6 sevenDigits = 123457 / 1000000 := by
  have hne : ¬sevenDigits = 0 := by rw [sevenDigits_eq]; norm_num
  have hnneg : ¬sevenDigits < 0 := by rw [sevenDigits_eq]; norm_num
  simp only [round6, exp10_sevenDigits, if_neg hne, if_neg hnneg]
  have harg : |sevenDigits| * (10 : ℚ) ^ ((5 : ℤ) - (-1)) = 1234567 / 10 := by
    rw [sevenDigits_eq, abs_of_pos (by norm_num : (0 : ℚ) < 1234567 / 10000000)]
    norm_num
  rw [harg]
  have hfloor : ⌊(1234567 / 10 : ℚ)⌋ = 123456 := by
    rw [Int.floor_eq_iff]
    norm_num
  simp only [roundHalfEven, hfloor]
  rw [if_neg (by push_cast; norm_num), if_pos (by push_cast; norm_num)]
  norm_num

set_option maxRecDepth 1000000

/-- C1: for every parameter set that passes all validation checks, the
triangle list `generate_grid` hands to the serializer contains exactly
`12 * (5 + (cols - 1) + (rows - 1))` triangles; instantiated at
`cols = rows = 1` (see the witness) this gives exactly 60 triangles with no
internal dividers. -/
theorem C1_triangle_count (p : Params) (nm : String) (ts : List Triangle)
    (h : generate_grid p = .ok (nm, ts)) :
    (ts.length : ℤ) = 12 * (5 + (p.cols - 1) + (p.rows - 1)) := by
  have hne : ¬isErr (generate_grid p) = true := by rw [h]; simp [isErr]
  rw [generate_grid_err_iff] at hne
  push_neg at hne
  obtain ⟨h1, h2, h3, h4, h5, h6, h7, h8, h9⟩ := hne
  have hv : validParams p := ⟨by omega, by omega, h3, h4, h5, h6, h7, h8, h9⟩
  rw [generate_grid_ok hv] at h
  simp only [Except.ok.injEq, Prod.mk.injEq] at h
  obtain ⟨-, rfl⟩ := h
  rw [mesh_length, planBoxes_length]
  omega

/-- Witness for C1 at the degenerate-but-valid 1-by-1 grid: exactly 60
triangles. -/
theorem C1_witness : ((mesh gridOneParams).length : ℤ) = 60 := by
  have h := C1_triangle_count gridOneParams _ _
    (generate_grid_ok validParams_gridOne)
  simpa [gridOneParams] using h

/-- C2 counterexample: in the mesh of the (valid) default parameter set, the
very first emitted triangle has cross product `(v2-v1) x (v3-v1)` pointing
opposite to its stated normal `(0,0,-1)`: the cross product is not a positive
multiple of the normal, so its normalization cannot equal the stated
normal. -/
theorem C2_counterexample :
    validParams defaultParams ∧
    (mesh defaultParams).head? = some firstFacet ∧
    ¬windingMatches firstFacet := by
  refine ⟨validParams_default, by decide, ?_⟩
  intro hm
  have hpos := hm.2
  simp only [firstFacet, triCross, cross, vsub, dot3] at hpos
  norm_num at hpos

/-- C2 (amended): for every valid parameter set, every triangle of the mesh
has its cross product `(v2-v1) x (v3-v1)` equal to a negative multiple of its
stated normal — the normalized cross product is the negation of the stated
normal, so viewed from outside along the stated normal the vertices appear
clockwise, not counter-clockwise. -/
theorem C2_winding_reversed (p : Params) (h : validParams p) :
    ∀ t ∈ mesh p, windingReversed t :=
  mesh_winding h

/-- Witness for C2 at the default parameters and the mesh's first
triangle. -/
theorem C2_witness : windingReversed firstFacet :=
  C2_winding_reversed defaultParams validParams_default firstFacet (by decide)

/-- C3: for any two opposite corners, `add_box` appends exactly 12
triangles — two per face sharing the `a`-`c` diagonal — in the face order
bottom, top, -X, +X, -Y, +Y, with exactly the normals and vertex orders of
the table (`twelveTris` spells out all 12 rows), the corners normalized per
axis by swap-on-detect; this holds for degenerate boxes too, since no
hypothesis on the corners is needed. -/
theorem C3_add_box_table (ts : List Triangle) (x0 y0 z0 x1 y1 z1 : ℚ) :
    add_box ts x0 y0 z0 x1 y1 z1 =
      ts ++ twelveTris (min x0 x1) (min y0 y1) (min z0 z1)
        (max x0 x1) (max y0 y1) (max z0 z1) ∧
    (add_box ts x0 y0 z0 x1 y1 z1).length = ts.length + 12 := by
  refine ⟨add_box_eq ts x0 y0 z0 x1 y1 z1, ?_⟩
  rw [add_box_eq]
  simp [twelveTris]

/-- C4 counterexample: for the valid 2-by-2 parameter set `crossParams`, the
vertical divider `vBox crossParams (9, 11)` and the horizontal divider
`hBox crossParams (9, 11)` are two distinct boxes of the emitted layout whose
open interiors share the point `(10, 10, 5)`: the layout's box extents are
not pairwise interior-disjoint. -/
theorem C4_counterexample :
    validParams crossParams ∧
    vBox crossParams (9, 11) ∈ planBoxes crossParams ∧
    hBox crossParams (9, 11) ∈ planBoxes crossParams ∧
    vBox crossParams (9, 11) ≠ hBox crossParams (9, 11) ∧
    ¬openDisjoint (vBox crossParams (9, 11)) (hBox crossParams (9, 11)) := by
  have hcw : cell_width crossParams = 7 := by
    simp only [cell_width, inner_width, crossParams]
    norm_num
  have hcl : cell_length crossParams = 7 := by
    simp only [cell_length, inner_length, crossParams]
    norm_num
  have hvb : vWallBands crossParams = [(9, 11)] := by
    show dividerWalls (cell_width crossParams) crossParams.wall_thickness
      crossParams.cols.toNat crossParams.wall_thickness = [(9, 11)]
    rw [hcw]
    show (((2 : ℚ) + 7, (2 : ℚ) + 7 + 2) :: dividerWalls 7 2 1 (2 + 7 + 2))
      = [(9, 11)]
    rw [dividerWalls]
    norm_num
  have hhb : hWallBands crossParams = [(9, 11)] := by
    show dividerWalls (cell_length crossParams) crossParams.wall_thickness
      crossParams.rows.toNat crossParams.wall_thickness = [(9, 11)]
    rw [hcl]
    show (((2 : ℚ) + 7, (2 : ℚ) + 7 + 2) :: dividerWalls 7 2 1 (2 + 7 + 2))
      = [(9, 11)]
    rw [dividerWalls]
    norm_num
  refine ⟨validParams_cross, ?_, ?_, ?_, ?_⟩
  · simp [planBoxes, hvb]
  · simp [planBoxes, hhb]
  · simp only [vBox, hBox, crossParams, ne_eq, Box.mk.injEq]
    norm_num
  · intro hd
    refine hd ⟨10, 10, 5⟩ ⟨?_, ?_⟩
    · simp only [inOpen, vBox, crossParams]
      norm_num
    · simp only [inOpen, hBox, crossParams]
      norm_num

/-- C4 (amended): for every valid parameter set the emitted box extents are
pairwise interior-disjoint with one family of exceptions: a vertical divider
and a horizontal divider may overlap (they do, in a wall-thickness-square
column at each grid crossing — see the counterexample). Formally, within the
base-plus-outer-walls-plus-vertical-dividers list and within the
base-plus-outer-walls-plus-horizontal-dividers list, any two distinct boxes
have disjoint open interiors. -/
theorem C4_layout_disjoint (p : Params) (h : validParams p) :
    List.Pairwise openDisjoint
      ([baseBox p, leftBox p, rightBox p, frontBox p, backBox p]
        ++ (vWallBands p).map (vBox p)) ∧
    List.Pairwise openDisjoint
      ([baseBox p, leftBox p, rightBox p, frontBox p, backBox p]
        ++ (hWallBands p).map (hBox p)) :=
  ⟨(pairwise_sep_v h).imp fun hab => sepAxis_openDisjoint hab,
   (pairwise_sep_h h).imp fun hab => sepAxis_openDisjoint hab⟩

/-- Witness for C4 at the 2-by-2 grid `crossParams`. -/
theorem C4_witness :
    List.Pairwise openDisjoint
      ([baseBox crossParams, leftBox crossParams, rightBox crossParams,
        frontBox crossParams, backBox crossParams]
        ++ (vWallBands crossParams).map (vBox crossParams)) ∧
    List.Pairwise openDisjoint
      ([baseBox crossParams, leftBox crossParams, rightBox crossParams,
        frontBox crossParams, backBox crossParams]
        ++ (hWallBands crossParams).map (hBox crossParams)) :=
  C4_layout_disjoint crossParams validParams_cross

/-- C5: `generate_grid` fails exactly when `cols < 1` or `rows < 1`, or one
of `wall_thickness`, `base_thickness`, `wall_height` is nonpositive, or
`inner_width` or `inner_length` is nonpositive, or the computed `cell_width`
or `cell_length` is nonpositive; in particular it fails for `cols = 0`, for
`wall_thickness = 0`, for `outer_width = 10` with `wall_thickness = 6`, and
for `cols = 100` with `outer_width = 50` and `wall_thickness = 2` (other
parameters at their defaults). -/
theorem C5_validation :
    (∀ p : Params, isErr (generate_grid p) = true ↔
      (p.cols < 1 ∨ p.rows < 1 ∨ p.wall_thickness ≤ 0 ∨
       p.base_thickness ≤ 0 ∨ p.wall_height ≤ 0 ∨ inner_width p ≤ 0 ∨
       inner_length p ≤ 0 ∨ cell_width p ≤ 0 ∨ cell_length p ≤ 0)) ∧
    isErr (generate_grid ⟨215, 115, 2, 2, 20, 0, 3⟩) = true ∧
    isErr (generate_grid ⟨215, 115, 2, 0, 20, 5, 3⟩) = true ∧
    isErr (generate_grid ⟨10, 115, 2, 6, 20, 5, 3⟩) = true ∧
    isErr (generate_grid ⟨50, 115, 2, 2, 20, 100, 3⟩) = true := by
  refine ⟨generate_grid_err_iff, ?_, ?_, ?_, ?_⟩
  · exact (generate_grid_err_iff _).mpr (Or.inl (by norm_num))
  · exact (generate_grid_err_iff _).mpr
      (Or.inr (Or.inr (Or.inl (by norm_num))))
  · refine (generate_grid_err_iff _).mpr
      (Or.inr (Or.inr (Or.inr (Or.inr (Or.inr (Or.inl ?_))))))
    simp only [inner_width]
    norm_num
  · refine (generate_grid_err_iff _).mpr
      (Or.inr (Or.inr (Or.inr (Or.inr (Or.inr (Or.inr (Or.inr (Or.inl ?_))))))))
    simp only [cell_width, inner_width]
    norm_num

/-- C6: when `generate_grid` fails with an invalid-parameter error, the run
performs no output I/O at all — the run's list of file writes is empty,
because all validation strictly precedes the `write_ascii_stl` call. -/
theorem C6_no_io_on_error (p : Params) (fn : String)
    (h : isErr (generate_grid p) = true) :
    (generate_grid_run p fn).2 = [] := by
  unfold generate_grid_run
  cases hg : generate_grid p with
  | error e => rfl
  | ok v =>
    rw [hg] at h
    simp [isErr] at h

/-- Witness for C6 at `cols = 0` (rejected by the first validation check). -/
theorem C6_witness :
    (generate_grid_run ⟨215, 115, 2, 2, 20, 0, 3⟩ "grid.stl").2 = [] :=
  C6_no_io_on_error ⟨215, 115, 2, 2, 20, 0, 3⟩ "grid.stl" rfl

/-- C7: `add_box` is symmetric in its two corner arguments — corners are
normalized per axis by swap-on-detect, so reversed input appends the
identical triangle list in the identical order. -/
theorem C7_add_box_symmetric (ts : List Triangle) (a1 a2 a3 b1 b2 b3 : ℚ) :
    add_box ts a1 a2 a3 b1 b2 b3 = add_box ts b1 b2 b3 a1 a2 a3 := by
  rw [add_box_eq, add_box_eq, min_comm a1 b1, min_comm a2 b2, min_comm a3 b3,
    max_comm a1 b1, max_comm a2 b2, max_comm a3 b3]

/-- C8 counterexample: the serializer renders components with at most six
significant digits, so the seven-significant-digit coordinate 0.1234567 is
rounded to 0.123457 in the output and a conformant reader does not recover
the triangle list that was passed in. -/
theorem C8_counterexample :
    sevenDigits = 1234567 / 10000000 ∧
    read_ascii_stl (write_ascii_stl "tray" [sevenDigitsTri]) ≠
      some ("tray", [sevenDigitsTri]) := by
  refine ⟨sevenDigits_eq, ?_⟩
  rw [write_read_roundtrip]
  intro h
  simp only [List.map_cons, List.map_nil, Option.some.injEq, Prod.mk.injEq,
    List.cons.injEq, true_and, and_true] at h
  have hx : round6 sevenDigits = sevenDigits :=
    congrArg (fun t : Triangle => t.v1.x) h
  rw [round6_sevenDigits, sevenDigits_eq] at hx
  norm_num at hx

/-- C8 (amended): the serializer emits exactly the exchange-format line
grammar — `solid <name>` header, then per triangle in list order a facet
normal line, `outer loop`, the three vertex lines, `endloop`, `endfacet`,
then `endsolid <name>` — with every numeric component carried at its
6-significant-digit general-format rendering; a conformant reader therefore
recovers the solid name and the triangle list with every component rounded to
six significant digits (identical to the input exactly when every component
already has at most six significant digits; the original identity claim
fails otherwise, see the counterexample). -/
theorem C8_serializer_roundtrip (nm : String) (ts : List Triangle) :
    write_ascii_stl nm ts =
      StlLine.solidLine nm ::
        (ts.flatMap facetLines ++ [StlLine.endsolidLine nm]) ∧
    read_ascii_stl (write_ascii_stl nm ts) = some (nm, ts.map triRound) :=
  ⟨rfl, write_read_roundtrip nm ts⟩

/-- C9: the default parameter set (215 x 115 tray, thickness 2, height 20,
5 columns, 3 rows) is accepted, produces exactly 132 triangles under the
solid name `grid_5x3`, and every vertex z-coordinate lies in [0, 22]. -/
theorem C9_default_scenario :
    generate_grid defaultParams = .ok ("grid_5x3", mesh defaultParams) ∧
    (mesh defaultParams).length = 132 ∧
    ∀ t ∈ mesh defaultParams,
      0 ≤ t.v1.z ∧ t.v1.z ≤ 22 ∧ 0 ≤ t.v2.z ∧ t.v2.z ≤ 22 ∧
      0 ≤ t.v3.z ∧ t.v3.z ≤ 22 := by
  refine ⟨?_, by decide, ?_⟩
  · rw [generate_grid_ok validParams_default]
    rfl
  · intro t ht
    obtain ⟨⟨-, -, -, -, hz1, hz1'⟩, ⟨-, -, -, -, hz2, hz2'⟩,
      ⟨-, -, -, -, hz3, hz3'⟩⟩ := mesh_bounds validParams_default t ht
    have h22 : defaultParams.base_thickness + defaultParams.wall_height
        = 22 := by
      simp only [defaultParams]
      norm_num
    rw [h22] at hz1' hz2' hz3'
    exact ⟨hz1, hz1', hz2, hz2', hz3, hz3'⟩

/-- C10: for every valid parameter set, every vertex of every triangle of
the mesh lies inside the tray's outer bounding box
`[0, outer_width] x [0, outer_length] x [0, base_thickness + wall_height]`
(exact arithmetic). -/
theorem C10_mesh_in_bounds (p : Params) (h : validParams p) :
    ∀ t ∈ mesh p, triIn p t :=
  mesh_bounds h

/-- Witness for C10 at the 1-by-1 grid and the first triangle of its mesh. -/
theorem C10_witness :
    triIn gridOneParams ⟨⟨0, 0, -1⟩, ⟨0, 0, 0⟩, ⟨10, 0, 0⟩, ⟨10, 10, 0⟩⟩ :=
  C10_mesh_in_bounds gridOneParams validParams_gridOne
    ⟨⟨0, 0, -1⟩, ⟨0, 0, 0⟩, ⟨10, 0, 0⟩, ⟨10, 10, 0⟩⟩ (by decide)

end GridGen
